import Mathlib

/-!
# Verification of the pyttsx3 espeak driver shim

Shallow embedding of `src/pyttsx3/drivers/espeak.py` (class `EspeakDriver`):
the driver state, the synthesis callback `_onSynth`, the property accessor
(`getProperty` / `setProperty`), the run loop `startLoop`, and the
enqueue operations `say` / `save_to_file` / `runAndWait`.

The espeak Engine Binding (`_espeak`), the proxy object and the host
platform are external collaborators; they are modelled by an environment
that fixes, per synthesis call, how `_espeak.Synth` behaves, and
whether the proxy calls `notify` / `setBusy` raise.  Side effects (proxy
notifications, engine calls, file writes, log lines) are recorded in an
effect trace.  Python byte strings are `List Nat` (byte values), text is
`String`, exceptions are carried as `String` messages.
-/

set_option maxRecDepth 10000

namespace Espeak

/-- A Python exception, identified by its message. -/
abbrev Exn := String

/-- A queued task: the Python queue holds either a plain string (a `say`
task) or a dict `{"text": ..., "filename": ...}` (a `save_to_file` task). -/
inductive Task where
  | say (text : String)
  | save (text : String) (filename : String)
  deriving DecidableEq, Repr

/-- The mutable fields of `EspeakDriver` touched by the loop and callback:
`_queue`, `_looping`, `_speaking`, `_stopping`, `_text_to_say`,
`_data_buffer` (bytes), `_save_file`. -/
structure DriverState where
  queue : List Task
  looping : Bool
  speaking : Bool
  stopping : Bool
  textToSay : Option String
  dataBuffer : List Nat
  saveFile : Option String
  deriving DecidableEq, Repr

/-- Driver state right after `__init__` (with a given queue preloaded,
for stating claims about the loop): not looping, not speaking, empty
buffer, no save target. -/
def mkState (queue : List Task) : DriverState :=
  { queue := queue
  , looping := false
  , speaking := false
  , stopping := false
  , textToSay := none
  , dataBuffer := []
  , saveFile := none }

/-- Observable side effects of the driver: proxy calls, engine calls,
file writes, external-player playback, log lines and sleeps. -/
inductive Effect where
  | setBusy (b : Bool)
  | notify (event : String)
  | notifyFinished (completed : Bool)
  | notifyError (e : Exn)
  | synthCall (text : String)
  | waveWrite (target : String) (data : List Nat)
  | waveWriteTemp (data : List Nat)
  | playCommand (data : List Nat)
  | removeTemp
  | logError
  | sleep
  deriving DecidableEq, Repr

/-- Behaviour of one `_espeak.Synth` call, chosen by the environment.
Under `AUDIO_OUTPUT_RETRIEVAL` the callback fires synchronously inside
`Synth`: `completes chunks` delivers each chunk of 16-bit samples through
the callback and then a `LIST_TERMINATED` event; `silent` returns without
ever signalling completion; `raises e` throws from the binding. -/
inductive SynthBehavior where
  | raises (e : Exn)
  | completes (chunks : List (List Nat))
  | silent
  deriving Repr

/-- External environment: per-call `Synth` behaviour (indexed by how many
`Synth` calls happened before), whether the proxy calls `notify(event)` /
`setBusy` raise, and whether `wave` file writes fail. -/
structure Env where
  synth : Nat → SynthBehavior
  notifyFail : String → Option Exn
  setBusyFail : Option Exn
  waveFail : Bool

/-- An environment whose proxy never raises. -/
def Env.benignProxy (env : Env) : Prop :=
  (∀ s, env.notifyFail s = none) ∧ env.setBusyFail = none

/-- `_espeak` event types delivered to the callback; only
`EVENT_LIST_TERMINATED` is inspected by `_onSynth`. -/
inductive SynthEvent where
  | listTerminated
  | other (type : Nat)
  deriving DecidableEq, Repr

/-- Little-endian bytes of one 16-bit sample (`c_short`). -/
def sampleBytes (s : Nat) : List Nat := [s % 256, s / 256 % 256]

/-- `ctypes.string_at(wav, numsamples * sizeof(c_short))`: the first
`numsamples` 16-bit samples of `wav`, as bytes. -/
def stringAt (wav : List Nat) (numsamples : Nat) : List Nat :=
  (wav.take numsamples).flatMap sampleBytes

/-- Result of one `_onSynth` invocation: the driver state and effect
trace after it, and either the returned status value or the exception
that escaped the handler. -/
structure OnSynthResult where
  state : DriverState
  trace : List Effect
  ret : Except Exn Int
  deriving Repr

/-- The body of the `for event in events` loop of `_onSynth`, processing the
events in order.  On `LIST_TERMINATED`: if `_save_file` is set, write the
buffer as a wave file inside `try/except/finally` (failure logged, buffer
and save target cleared either way); then set `_speaking = False`, notify
`finished-utterance` and `setBusy(False)` — these two proxy calls are not
inside any `try`, so a raising proxy propagates out of the handler. -/
def onSynthEvents (env : Env) (waveFail : Bool) :
    List SynthEvent → DriverState → List Effect →
    DriverState × List Effect × Option Exn
  | [], st, tr => (st, tr, none)
  | ev :: rest, st, tr =>
    match ev with
    | .other _ => onSynthEvents env waveFail rest st tr
    | .listTerminated =>
      -- save-to-file finalisation, guarded by `if self._save_file:`
      let (st, tr) :=
        match st.saveFile with
        | none => (st, tr)
        | some target =>
          let tr := if waveFail then tr ++ [Effect.logError]
                    else tr ++ [Effect.waveWrite target st.dataBuffer]
          -- `finally:` clear buffer and save target
          ({ st with dataBuffer := [], saveFile := none }, tr)
      let st := { st with speaking := false }
      match env.notifyFail "finished-utterance" with
      | some e => (st, tr, some e)
      | none =>
        let tr := tr ++ [Effect.notifyFinished true]
        match env.setBusyFail with
        | some e => (st, tr, some e)
        | none =>
          onSynthEvents env waveFail rest st (tr ++ [Effect.setBusy false])

/-- `_onSynth(wav, numsamples, events)`: process the events, then append
`string_at(wav, numsamples * 2)` to `_data_buffer` when `numsamples > 0`,
and return status `0`.  `waveFail` says whether the `wave` write raises
on this invocation. -/
def onSynth (env : Env) (waveFail : Bool) (st : DriverState)
    (wav : List Nat) (numsamples : Nat) (events : List SynthEvent) :
    OnSynthResult :=
  match onSynthEvents env waveFail events st [] with
  | (st, tr, some e) => { state := st, trace := tr, ret := .error e }
  | (st, tr, none) =>
    let st := if numsamples > 0 then
        { st with dataBuffer := st.dataBuffer ++ stringAt wav numsamples }
      else st
    { state := st, trace := tr, ret := .ok 0 }

/-- `_playback_audio`: write the buffer to a temporary mono 16-bit
22050 Hz wave file, hand it to the platform player (afplay / aplay /
winsound depending on the host), and remove the temporary file; any
failure is logged and swallowed.  In the source this method is defined
on the class but never invoked from any code path. -/
def playbackAudio (st : DriverState) : List Effect :=
  [Effect.waveWriteTemp st.dataBuffer,
   Effect.playCommand st.dataBuffer,
   Effect.removeTemp]

/-! ## Python values and exceptions -/

/-- Python exceptions that the property accessor can raise. -/
inductive PyError where
  | keyError (msg : String)
  | valueError (msg : String)
  | typeError (msg : String)
  | unicodeDecodeError
  | indexError
  deriving DecidableEq, Repr

/-- The dynamic values callers pass to `setProperty`. -/
inductive PyVal where
  | none
  | str (s : String)
  | int (n : ℤ)
  | float (q : ℚ)
  deriving DecidableEq, Repr

/-! ## UTF-8 codecs (CPython `bytes.decode("utf-8")`)

Decoded Python strings are lists of Unicode code points. -/

/-- Is `b` a UTF-8 continuation byte? -/
def isCont (b : Nat) : Bool := 0x80 ≤ b && b ≤ 0xBF

/-- Valid range for the first continuation byte of a 3-byte sequence
(rules out overlong encodings and surrogates, as CPython does). -/
def cont1OK3 (b c1 : Nat) : Bool :=
  if b = 0xE0 then 0xA0 ≤ c1 && c1 ≤ 0xBF
  else if b = 0xED then 0x80 ≤ c1 && c1 ≤ 0x9F
  else isCont c1

/-- Valid range for the first continuation byte of a 4-byte sequence. -/
def cont1OK4 (b c1 : Nat) : Bool :=
  if b = 0xF0 then 0x90 ≤ c1 && c1 ≤ 0xBF
  else if b = 0xF4 then 0x80 ≤ c1 && c1 ≤ 0x8F
  else isCont c1

/-- Code point of a 2-byte UTF-8 sequence. -/
def cp2 (b c1 : Nat) : Nat := (b % 0x20) * 64 + c1 % 64

/-- Code point of a 3-byte UTF-8 sequence. -/
def cp3 (b c1 c2 : Nat) : Nat := (b % 0x10) * 4096 + (c1 % 64) * 64 + c2 % 64

/-- Code point of a 4-byte UTF-8 sequence. -/
def cp4 (b c1 c2 c3 : Nat) : Nat :=
  (b % 0x8) * 262144 + (c1 % 64) * 4096 + (c2 % 64) * 64 + c3 % 64

/-- Is `b` the lead byte of a 2-byte sequence? -/
def isLead2 (b : Nat) : Bool := 0xC2 ≤ b && b ≤ 0xDF

/-- Is `b` the lead byte of a 3-byte sequence? -/
def isLead3 (b : Nat) : Bool := 0xE0 ≤ b && b ≤ 0xEF

/-- Is `b` the lead byte of a 4-byte sequence? -/
def isLead4 (b : Nat) : Bool := 0xF0 ≤ b && b ≤ 0xF4

/-- Worker for `bytes.decode("utf-8", errors="ignore")`: each maximal
invalid subpart (a lead byte with too few valid continuations, or a
stray byte) is dropped and decoding continues at the byte after it.
The fuel only funds the recursion; every call consumes at least one
byte, so fuel = length never runs out. -/
def utf8IgnoreAux : Nat → List Nat → List Nat
  | _, [] => []
  | 0, _ :: _ => []
  | fuel + 1, b :: rest =>
    if b < 0x80 then b :: utf8IgnoreAux fuel rest
    else if isLead2 b then
      match rest with
      | c1 :: rest1 =>
        if isCont c1 then cp2 b c1 :: utf8IgnoreAux fuel rest1
        else utf8IgnoreAux fuel rest
      | [] => []
    else if isLead3 b then
      match rest with
      | c1 :: rest1 =>
        if cont1OK3 b c1 then
          match rest1 with
          | c2 :: rest2 =>
            if isCont c2 then cp3 b c1 c2 :: utf8IgnoreAux fuel rest2
            else utf8IgnoreAux fuel rest1
          | [] => []
        else utf8IgnoreAux fuel rest
      | [] => []
    else if isLead4 b then
      match rest with
      | c1 :: rest1 =>
        if cont1OK4 b c1 then
          match rest1 with
          | c2 :: rest2 =>
            if isCont c2 then
              match rest2 with
              | c3 :: rest3 =>
                if isCont c3 then cp4 b c1 c2 c3 :: utf8IgnoreAux fuel rest3
                else utf8IgnoreAux fuel rest2
              | [] => []
            else utf8IgnoreAux fuel rest1
          | [] => []
        else utf8IgnoreAux fuel rest
      | [] => []
    else utf8IgnoreAux fuel rest

/-- `bytes.decode("utf-8", errors="ignore")`: never fails. -/
def utf8DecodeIgnore (l : List Nat) : List Nat := utf8IgnoreAux l.length l

/-- Worker for strict `bytes.decode("utf-8")`: `none` models a raised
`UnicodeDecodeError` on the first invalid subpart. -/
def utf8StrictAux : Nat → List Nat → Option (List Nat)
  | _, [] => some []
  | 0, _ :: _ => Option.none
  | fuel + 1, b :: rest =>
    if b < 0x80 then (utf8StrictAux fuel rest).map (b :: ·)
    else if isLead2 b then
      match rest with
      | c1 :: rest1 =>
        if isCont c1 then (utf8StrictAux fuel rest1).map (cp2 b c1 :: ·)
        else Option.none
      | [] => Option.none
    else if isLead3 b then
      match rest with
      | c1 :: rest1 =>
        if cont1OK3 b c1 then
          match rest1 with
          | c2 :: rest2 =>
            if isCont c2 then (utf8StrictAux fuel rest2).map (cp3 b c1 c2 :: ·)
            else Option.none
          | [] => Option.none
        else Option.none
      | [] => Option.none
    else if isLead4 b then
      match rest with
      | c1 :: rest1 =>
        if cont1OK4 b c1 then
          match rest1 with
          | c2 :: rest2 =>
            if isCont c2 then
              match rest2 with
              | c3 :: rest3 =>
                if isCont c3 then
                  (utf8StrictAux fuel rest3).map (cp4 b c1 c2 c3 :: ·)
                else Option.none
              | [] => Option.none
            else Option.none
          | [] => Option.none
        else Option.none
      | [] => Option.none
    else Option.none

/-- Strict `bytes.decode("utf-8")`. -/
def utf8DecodeStrict (l : List Nat) : Option (List Nat) :=
  utf8StrictAux l.length l

/-- UTF-8 bytes of one Unicode code point. -/
def encodeCp (c : Nat) : List Nat :=
  if c < 0x80 then [c]
  else if c < 0x800 then [0xC0 + c / 64, 0x80 + c % 64]
  else if c < 0x10000 then
    [0xE0 + c / 4096, 0x80 + c / 64 % 64, 0x80 + c % 64]
  else
    [0xF0 + c / 262144, 0x80 + c / 4096 % 64, 0x80 + c / 64 % 64,
     0x80 + c % 64]

/-- `str.encode("utf-8")` on Lean-side text. -/
def utf8Encode (s : String) : List Nat :=
  s.data.flatMap (fun c => encodeCp c.toNat)

/-- `str.lower()` restricted to the ASCII range (espeak identifiers and
names are ASCII). -/
def lowerCp (c : Nat) : Nat := if 65 ≤ c ∧ c ≤ 90 then c + 32 else c

/-! ## Voices -/

/-- A native `espeak_VOICE` record as seen through ctypes: `name`,
`identifier` and `languages` are byte strings, `gender` and `age` are
small integers. -/
structure VoiceRecord where
  name : List Nat
  identifier : List Nat
  languages : List Nat
  gender : Nat
  age : Nat
  deriving DecidableEq, Repr

/-- The driver-facing `Voice` descriptor built by `getProperty("voices")`.
Fields are decoded Python strings (code-point lists); `languages` is
absent when the languages field of the record is empty. -/
structure Voice where
  id : List Nat
  name : List Nat
  languages : Option (List (List Nat))
  gender : Option (List Nat)
  age : Option Nat
  deriving DecidableEq, Repr

/-- Code points of `"Male"`. -/
def maleStr : List Nat := [77, 97, 108, 101]

/-- Code points of `"Female"`. -/
def femaleStr : List Nat := [70, 101, 109, 97, 108, 101]

/-- Code points of `"Unknown"`. -/
def unknownStr : List Nat := [85, 110, 107, 110, 111, 119, 110]

/-- Build one `Voice` from a native record, as the `voices` branch of
`getProperty` does: strict-decode and lower-case the identifier,
strict-decode the name, and when the languages field is non-empty decode
it (minus its leading priority byte) with `errors="ignore"` — the
`except UnicodeDecodeError` arm substituting `["Unknown"]` can only be
reached if that decode raises.  `genders[v.gender]` raises `IndexError`
for a gender outside 0..2; `v.age or None` maps age 0 to absent. -/
def buildVoice (v : VoiceRecord) : Except PyError Voice :=
  match utf8DecodeStrict v.identifier with
  | Option.none => .error .unicodeDecodeError
  | some idCps =>
    match utf8DecodeStrict v.name with
    | Option.none => .error .unicodeDecodeError
    | some nameCps =>
      let languages : Option (List (List Nat)) :=
        if v.languages = [] then Option.none
        else some [utf8DecodeIgnore (v.languages.drop 1)]
      match v.gender with
      | 0 => .ok { id := idCps.map lowerCp, name := nameCps
                 , languages := languages, gender := Option.none
                 , age := if v.age = 0 then Option.none else some v.age }
      | 1 => .ok { id := idCps.map lowerCp, name := nameCps
                 , languages := languages, gender := some maleStr
                 , age := if v.age = 0 then Option.none else some v.age }
      | 2 => .ok { id := idCps.map lowerCp, name := nameCps
                 , languages := languages, gender := some femaleStr
                 , age := if v.age = 0 then Option.none else some v.age }
      | _ + 3 => .error .indexError

/-- `getProperty("voices")`: map `buildVoice` over every record from
`_espeak.ListVoices`, propagating the first raised exception. -/
def getVoices : List VoiceRecord → Except PyError (List Voice)
  | [] => .ok []
  | v :: rest => do
    let voice ← buildVoice v
    let voices ← getVoices rest
    return voice :: voices

/-! ## Python numerics

The numeric values reaching the accessor (0.5, 100, 200, …) are exact in
binary floating point, so rationals model them without rounding drift. -/

/-- Floor of a rational, computed as flooring division of the numerator
by the denominator (so that concrete values evaluate). -/
def ratFloor (x : ℚ) : ℤ := Int.fdiv x.num x.den

/-- Round half to even (the tie rule of Python `round`) to an integer. -/
def roundHalfEven (x : ℚ) : ℤ :=
  let f := ratFloor x
  let r := x - f
  if r < 1/2 then f
  else if 1/2 < r then f + 1
  else if f % 2 = 0 then f else f + 1

/-- Python `round(x, 2)`. -/
def pyRound2 (x : ℚ) : ℚ := (roundHalfEven (x * 100) : ℚ) / 100

/-- Python `int(x)` on a number: truncation toward zero. -/
def pyTrunc (x : ℚ) : ℤ := if 0 ≤ x then ratFloor x else -ratFloor (-x)

/-- `int(round(value * 100, 2))`: the caller-facing 0.0–1.0 volume
fraction scaled to the 0–100 integer scale of the engine. -/
def volumeScaled (v : ℚ) : ℤ := pyTrunc (pyRound2 (v * 100))

/-! ## Property accessor -/

/-- The numeric parameter slots of the Engine Binding (`espeak_Parameter`
values RATE, VOLUME, PITCH).  `GetParameter` returns whatever the last
`SetParameter` stored. -/
structure EngineParams where
  rate : ℤ
  volume : ℤ
  pitch : ℤ
  deriving DecidableEq, Repr

/-- Engine Binding calls made by the property accessor. -/
inductive EngEffect where
  | setVoiceByName (name : List Nat)
  | setParamRate (value : ℤ)
  | setParamVolume (value : ℤ)
  | setParamPitch (value : ℤ)
  deriving DecidableEq, Repr

/-- The engine-side environment the accessor consults: the voice table,
the current voice, and the return code of `SetVoiceByName` per name. -/
structure EngineEnv where
  voiceRecords : List VoiceRecord
  currentVoice : Option VoiceRecord
  setVoiceResult : List Nat → Nat

/-- What `getProperty` can return. -/
inductive GetResult where
  | voices (vs : List Voice)
  | voiceId (id : List Nat)
  | pyNone
  | int (n : ℤ)
  | rat (q : ℚ)
  deriving DecidableEq, Repr

/-- `str(value)` as used by the `voice` branch of `setProperty`.  Floats
carry no claim here; they are rendered from the exact rational. -/
def pyStr : PyVal → String
  | .none => "None"
  | .str s => s
  | .int n => toString n
  | .float q => toString q.num ++ "/" ++ toString q.den

/-- `EspeakDriver.getProperty(name)`: dispatch on the property name;
`volume` is scaled back from the 0–100 engine integers to a fraction;
an unrecognised name raises `KeyError("unknown property %s" % name)`. -/
def getProperty (env : EngineEnv) (params : EngineParams) (name : String) :
    Except PyError GetResult :=
  if name = "voices" then
    (getVoices env.voiceRecords).map .voices
  else if name = "voice" then
    match env.currentVoice with
    | some v =>
      if v.name ≠ [] then
        match utf8DecodeStrict v.identifier with
        | some cps => .ok (.voiceId (cps.map lowerCp))
        | Option.none => .error .unicodeDecodeError
      else .ok .pyNone
    | Option.none => .ok .pyNone
  else if name = "rate" then .ok (.int params.rate)
  else if name = "volume" then .ok (.rat ((params.volume : ℚ) / 100))
  else if name = "pitch" then .ok (.int params.pitch)
  else .error (.keyError ("unknown property " ++ name))

/-- `EspeakDriver.setProperty(name, value)`: returns the updated engine
parameters, the Engine Binding calls made, and the exception raised, if
any.  `voice` with `None` returns before touching the engine; any other
voice value is encoded and passed to `SetVoiceByName`, whose non-zero
return codes raise `ValueError`.  `rate` accepts only ints (ctypes
rejects other types with `ArgumentError`, re-raised as `ValueError`);
`volume` scales by 100 with round-then-truncate, raising `ValueError`
for non-numeric values (via the caught `TypeError`); `pitch` truncates
to int likewise.  Any other name raises the `KeyError`. -/
def setProperty (env : EngineEnv) (params : EngineParams) (name : String)
    (value : PyVal) : EngineParams × List EngEffect × Option PyError :=
  if name = "voice" then
    match value with
    | .none => (params, [], Option.none)
    | v =>
      let bytes := utf8Encode (pyStr v)
      let code := env.setVoiceResult bytes
      if code = 0 then (params, [.setVoiceByName bytes], Option.none)
      else if code = 1 then
        (params, [.setVoiceByName bytes],
         some (.valueError "SetVoiceByName failed: EE_BUFFER_FULL"))
      else if code = 2 then
        (params, [.setVoiceByName bytes],
         some (.valueError "SetVoiceByName failed: EE_INTERNAL_ERROR"))
      else
        (params, [.setVoiceByName bytes],
         some (.valueError "SetVoiceByName failed with unknown return code"))
  else if name = "rate" then
    match value with
    | .int n => ({ params with rate := n }, [.setParamRate n], Option.none)
    | _ => (params, [], some (.valueError "ctypes.ArgumentError"))
  else if name = "volume" then
    match value with
    | .int n => ({ params with volume := volumeScaled n }, [.setParamVolume (volumeScaled n)], Option.none)
    | .float q => ({ params with volume := volumeScaled q }, [.setParamVolume (volumeScaled q)], Option.none)
    | _ => (params, [], some (.valueError "TypeError"))
  else if name = "pitch" then
    match value with
    | .int n => ({ params with pitch := n }, [.setParamPitch n], Option.none)
    | .float q => ({ params with pitch := pyTrunc q }, [.setParamPitch (pyTrunc q)], Option.none)
    | _ => (params, [], some (.valueError "TypeError"))
  else (params, [], some (.keyError ("unknown property " ++ name)))

/-- The driver together with the engine parameters, for stating that
property calls leave the task queue and busy/speaking state alone. -/
structure World where
  driver : DriverState
  params : EngineParams
  deriving Repr

/-- `setProperty` lifted to the whole world: it can only ever touch the
engine parameters — `getProperty`/`setProperty` are static methods with
no access to the queue or flags. -/
def setPropertyW (env : EngineEnv) (w : World) (name : String)
    (value : PyVal) : World × List EngEffect × Option PyError :=
  match setProperty env w.params name value with
  | (p, tr, err) => ({ w with params := p }, tr, err)

/-! ## The run loop -/

/-- Outcome of `startLoop`: a normal return, an exception propagating
out to the caller, or exhaustion of the recursion budget (unreachable:
the iteration ceiling of the source fires first, see `loopAux`). -/
inductive LoopResult where
  | normal (st : DriverState) (tr : List Effect)
  | raised (e : Exn) (st : DriverState) (tr : List Effect)
  | fuelOut
  deriving Repr

/-- Deliver the audio chunks of one `Synth` call through the registered
callback (`AUDIO_OUTPUT_RETRIEVAL` invokes it synchronously), each call
carrying `numsamples = len(chunk)` samples and no events.  An exception
escaping the Python callback is swallowed at the ctypes boundary
(printed, callback treated as returning 0), so only state and trace
carry over. -/
def runChunks (env : Env) : List (List Nat) → DriverState → List Effect →
    DriverState × List Effect
  | [], st, tr => (st, tr)
  | chunk :: rest, st, tr =>
    let r := onSynth env env.waveFail st chunk chunk.length []
    runChunks env rest r.state (tr ++ r.trace)

/-- One `_espeak.Synth` call, behaving as the environment entry for
this call index dictates: raise, deliver chunks then a
`LIST_TERMINATED` event, or return without ever terminating the
stream. -/
def runSynthCall (env : Env) (idx : Nat) (st : DriverState)
    (tr : List Effect) : DriverState × List Effect × Option Exn :=
  match env.synth idx with
  | .raises e => (st, tr, some e)
  | .silent => (st, tr, none)
  | .completes chunks =>
    let (st, tr) := runChunks env chunks st tr
    let r := onSynth env env.waveFail st [] 0 [SynthEvent.listTerminated]
    (r.state, tr ++ r.trace, none)

/-- `_start_synthesis(text)`: `setBusy(True)`, notify
`started-utterance`, set `_speaking = True`, clear the buffer, then call
`Synth`; if `Synth` raises, `setBusy(False)`, notify `error` with the
failure and re-raise.  `_speaking` stays `True` on that path — it was
set before the `try`. -/
def startSynthesis (env : Env) (idx : Nat) (text : String)
    (st : DriverState) (tr : List Effect) :
    DriverState × List Effect × Option Exn :=
  match env.setBusyFail with
  | some e => (st, tr, some e)
  | Option.none =>
  let tr := tr ++ [Effect.setBusy true]
  match env.notifyFail "started-utterance" with
  | some e => (st, tr, some e)
  | Option.none =>
  let tr := tr ++ [Effect.notify "started-utterance"]
  let st := { st with speaking := true, dataBuffer := [] }
  let tr := tr ++ [Effect.synthCall text]
  match runSynthCall env idx st tr with
  | (st, tr, Option.none) => (st, tr, Option.none)
  | (st, tr, some e) =>
    -- `except Exception as e:` — setBusy(False); notify("error", e); raise
    match env.setBusyFail with
    | some e2 => (st, tr, some e2)
    | Option.none =>
    let tr := tr ++ [Effect.setBusy false]
    match env.notifyFail "error" with
    | some e2 => (st, tr, some e2)
    | Option.none => (st, tr ++ [Effect.notifyError e], some e)

/-- Processing of one popped task by the loop body: record the save
target and text the task carries (`task["filename"]`/`task["text"]` for
a save dict, no save target for a plain string), `setBusy(True)`, then
`_start_synthesis`.  The caller has already removed the task from the
queue. -/
def popDispatch (env : Env) (callIdx : Nat) (t : Task) (st : DriverState)
    (tr : List Effect) : DriverState × List Effect × Option Exn :=
  let (st, text) :=
    match t with
    | .save text fn =>
      ({ st with saveFile := some fn, textToSay := some text }, text)
    | .say text =>
      ({ st with saveFile := Option.none, textToSay := some text }, text)
  -- `self._proxy.setBusy(True)` before `_start_synthesis`
  match env.setBusyFail with
  | some e => (st, tr, some e)
  | Option.none => startSynthesis env callIdx text st (tr ++ [Effect.setBusy true])

/-- The `while self._looping:` loop of `startLoop`, with the recursion
budget `fuel` and the `timeout_counter` of the source threaded explicitly
(`callIdx` counts `Synth` calls for the environment).  Each iteration:
bump the counter and force-quit past 5000 logging an error; pop and
start the next task when not speaking and the queue is non-empty (an
exception from `_start_synthesis` propagates out as `.raised`); clear
`_looping` when idle with an empty queue; sleep; repeat. -/
def loopAux (env : Env) : Nat → Nat → Nat → DriverState → List Effect →
    LoopResult
  | 0, _, _, _, _ => .fuelOut
  | fuel + 1, counter, callIdx, st, tr =>
    if ¬st.looping then .normal st tr
    else
      let counter := counter + 1
      if counter > 5000 then
        .normal { st with looping := false } (tr ++ [Effect.logError])
      else
        match st.speaking, st.queue with
        | false, t :: rest =>
          match popDispatch env callIdx t { st with queue := rest } tr with
          | (st, tr, some e) => .raised e st tr
          | (st, tr, Option.none) =>
            let st := if ¬st.speaking ∧ st.queue = [] then
                { st with looping := false } else st
            loopAux env fuel counter (callIdx + 1) st (tr ++ [Effect.sleep])
        | _, _ =>
          let st := if ¬st.speaking ∧ st.queue = [] then
              { st with looping := false } else st
          loopAux env fuel counter callIdx st (tr ++ [Effect.sleep])

/-- `startLoop()` (internal mode, `external=False`): return immediately
if already looping; otherwise set `_looping = True`, run the loop, and
on leaving it call `self._proxy.setBusy(False)` — a line skipped when an
exception propagates. -/
def startLoop (env : Env) (st : DriverState) : LoopResult :=
  if st.looping then .normal st []
  else
    match loopAux env 6000 0 0 { st with looping := true } [] with
    | .normal s tr =>
      match env.setBusyFail with
      | some e => .raised e s tr
      | Option.none => .normal s (tr ++ [Effect.setBusy false])
    | r => r

/-- `say(text)`: append the text to the queue and, when the loop is not
running, run it synchronously inside the call. -/
def say (env : Env) (st : DriverState) (text : String) : LoopResult :=
  let st := { st with queue := st.queue ++ [Task.say text] }
  if ¬st.looping then startLoop env st else .normal st []

/-- `save_to_file(text, filename)`: append a save task and, when the
loop is not running, run it synchronously inside the call. -/
def saveToFile (env : Env) (st : DriverState) (text filename : String) :
    LoopResult :=
  let st := { st with queue := st.queue ++ [Task.save text filename] }
  if ¬st.looping then startLoop env st else .normal st []

/-- The `while self._queue or self._speaking: time.sleep(0.01)` poll of
`runAndWait`.  The driver is single-threaded and the poll body only
sleeps, so the state never changes between polls: the loop either exits
immediately or never (`none`). -/
def waitPoll : Nat → DriverState → Option DriverState
  | 0, _ => Option.none
  | fuel + 1, st =>
    if st.queue ≠ [] ∨ st.speaking then waitPoll fuel st else some st

/-- `runAndWait()`: start the loop when idle, then poll until the queue
is empty and nothing is speaking.  `none` models every way the call
fails to return normally: a propagated exception or an endless poll. -/
def runAndWait (env : Env) (st : DriverState) :
    Option (DriverState × List Effect) :=
  match (if ¬st.looping then startLoop env st else .normal st []) with
  | .normal s tr => (waitPoll 2 s).map (fun s2 => (s2, tr))
  | _ => Option.none

/-- Final driver state of a loop result (dummy on fuel exhaustion). -/
def LoopResult.stateD : LoopResult → DriverState
  | .normal st _ => st
  | .raised _ st _ => st
  | .fuelOut => mkState []

/-- Effect trace of a loop result. -/
def LoopResult.traceD : LoopResult → List Effect
  | .normal _ tr => tr
  | .raised _ _ tr => tr
  | .fuelOut => []

/-- Did the call propagate an exception to its caller? -/
def LoopResult.isRaised : LoopResult → Bool
  | .raised _ _ _ => true
  | _ => false

/-! ## Example environments for concrete runs -/

/-- Environment in which every synthesis call succeeds, delivering two
sample chunks and then the termination event; the proxy never raises and
wave writes succeed. -/
def exEnv : Env :=
  { synth := fun _ => .completes [[1, 2], [3]]
  , notifyFail := fun _ => none
  , setBusyFail := none
  , waveFail := false }

/-- Environment whose synthesis calls return without ever signalling
completion. -/
def silentEnv : Env := { exEnv with synth := fun _ => .silent }

/-- Environment whose synthesis calls raise. -/
def raiseEnv : Env := { exEnv with synth := fun _ => SynthBehavior.raises "boom" }

/-- Environment whose proxy raises on the finished-utterance
notification. -/
def hostileEnv : Env :=
  { exEnv with notifyFail :=
      fun s => if s = "finished-utterance" then some "proxy-raise" else none }

/-- Engine-side environment in which `SetVoiceByName` always accepts. -/
def exEngineEnv : EngineEnv :=
  { voiceRecords := [], currentVoice := none, setVoiceResult := fun _ => 0 }

/-- Example world for the property claims. -/
def exWorld : World :=
  { driver := mkState [], params := { rate := 200, volume := 100, pitch := 50 } }

/-- A native voice record whose language-code field decodes to nothing:
after stripping the priority byte 5, the remaining byte 0xFF is not
valid UTF-8. -/
def badLangVoice : VoiceRecord :=
  { name := [65], identifier := [66, 67], languages := [5, 0xFF]
  , gender := 1, age := 0 }

/-! ## Helper lemmas -/

/-- The event loop of the callback never touches `_looping`. -/
theorem onSynthEvents_looping (env : Env) (waveFail : Bool) :
    ∀ (evs : List SynthEvent) (st : DriverState) (tr : List Effect),
    (onSynthEvents env waveFail evs st tr).1.looping = st.looping := by
  intro evs
  induction evs with
  | nil => intro st tr; rfl
  | cons ev rest ih =>
    intro st tr
    cases ev with
    | other t => exact ih st tr
    | listTerminated =>
      simp only [onSynthEvents]
      cases hs : st.saveFile <;>
        cases hn : env.notifyFail "finished-utterance" <;>
          cases hb : env.setBusyFail <;>
            simp [hs, hn, hb, ih]

/-- The callback never touches `_looping`. -/
theorem onSynth_looping (env : Env) (waveFail : Bool) (st : DriverState)
    (wav : List Nat) (numsamples : Nat) (events : List SynthEvent) :
    (onSynth env waveFail st wav numsamples events).state.looping =
      st.looping := by
  unfold onSynth
  have h := onSynthEvents_looping env waveFail events st []
  rcases he : onSynthEvents env waveFail events st [] with ⟨st2, tr2, e?⟩
  rw [he] at h
  cases e? with
  | some e => simpa using h
  | none =>
    simp only []
    split <;> simpa using h

/-- Delivering audio chunks never touches `_looping`. -/
theorem runChunks_looping (env : Env) :
    ∀ (chunks : List (List Nat)) (st : DriverState) (tr : List Effect),
    (runChunks env chunks st tr).1.looping = st.looping := by
  intro chunks
  induction chunks with
  | nil => intro st tr; rfl
  | cons c rest ih =>
    intro st tr
    simp only [runChunks]
    rw [ih, onSynth_looping]

/-- One `Synth` call never touches `_looping`. -/
theorem runSynthCall_looping (env : Env) (idx : Nat) (st : DriverState)
    (tr : List Effect) :
    (runSynthCall env idx st tr).1.looping = st.looping := by
  unfold runSynthCall
  cases env.synth idx with
  | raises e => rfl
  | silent => rfl
  | completes chunks =>
    simp only []
    rw [onSynth_looping, runChunks_looping]

/-- Starting synthesis never touches `_looping`. -/
theorem startSynthesis_looping (env : Env) (idx : Nat) (text : String)
    (st : DriverState) (tr : List Effect) :
    (startSynthesis env idx text st tr).1.looping = st.looping := by
  unfold startSynthesis
  cases hb : env.setBusyFail <;> cases hn : env.notifyFail "started-utterance" <;>
    simp only [hb, hn]
  · have h := runSynthCall_looping env idx
      { st with speaking := true, dataBuffer := [] }
      (tr ++ [Effect.setBusy true] ++ [Effect.notify "started-utterance"] ++
        [Effect.synthCall text])
    rcases hr : runSynthCall env idx { st with speaking := true, dataBuffer := [] }
        (tr ++ [Effect.setBusy true] ++ [Effect.notify "started-utterance"] ++
          [Effect.synthCall text]) with ⟨st2, tr2, e?⟩
    rw [hr] at h
    simp at h
    cases e? with
    | none => simp [h]
    | some e =>
      simp only [hb]
      cases env.notifyFail "error" <;> simp [h]

/-- Once the loop is stuck speaking (a synthesis call returned without
ever signalling completion), every further iteration only bumps the
counter and sleeps, until the iteration ceiling force-terminates the
loop with an error log; the queue and every other field are left
untouched. -/
theorem loopAux_stuck (env : Env) (fuel : Nat) :
    ∀ (counter callIdx : Nat) (st : DriverState) (tr : List Effect),
    st.looping = true → st.speaking = true →
    counter ≤ 5000 → 5001 ≤ counter + fuel →
    loopAux env fuel counter callIdx st tr =
      .normal { st with looping := false }
        (tr ++ List.replicate (5000 - counter) Effect.sleep ++
          [Effect.logError]) := by
  induction fuel with
  | zero => intro counter _ _ _ _ _ hc hf; omega
  | succ fuel ih =>
    intro counter callIdx st tr hl hs hc hf
    rw [loopAux]
    rw [if_neg (by simp [hl])]
    by_cases hcnt : counter + 1 > 5000
    · rw [if_pos hcnt]
      have hceq : counter = 5000 := by omega
      subst hceq
      simp
    · rw [if_neg hcnt]
      split
      · rename_i hsp _
        rw [hsp] at hs
        cases hs
      · have hrec := ih (counter + 1) callIdx st (tr ++ [Effect.sleep]) hl hs
          (by omega) (by omega)
        have hrepl : (5000 - counter) = (5000 - (counter + 1)) + 1 := by omega
        simp only [hs, not_true_eq_false, false_and, if_false, ite_false]
        rw [hrec, hrepl, List.replicate_succ]
        simp
        exact hs

/-- Running the loop on a queue headed by a say task whose synthesis
never signals completion: the first iteration pops the task and starts
it, every later iteration spins until the 5000-iteration ceiling logs an
error and force-terminates; the rest of the queue survives and the
speaking flag is still set when `startLoop` returns. -/
theorem startLoop_silent (env : Env) (text : String) (rest : List Task)
    (hb : env.benignProxy) (h0 : env.synth 0 = .silent) :
    startLoop env (mkState (Task.say text :: rest)) =
      .normal
        { queue := rest, looping := false, speaking := true,
          stopping := false, textToSay := some text, dataBuffer := [],
          saveFile := none }
        ([Effect.setBusy true, Effect.setBusy true,
          Effect.notify "started-utterance", Effect.synthCall text,
          Effect.sleep] ++ List.replicate 4999 Effect.sleep ++
          [Effect.logError, Effect.setBusy false]) := by
  obtain ⟨hn, hbf⟩ := hb
  have h6000 : (6000 : Nat) = 5999 + 1 := by norm_num
  have h1 : loopAux env 6000 0 0
      { mkState (Task.say text :: rest) with looping := true } [] =
      loopAux env 5999 1 1
        { queue := rest, looping := true, speaking := true,
          stopping := false, textToSay := some text, dataBuffer := [],
          saveFile := none }
        [Effect.setBusy true, Effect.setBusy true,
         Effect.notify "started-utterance", Effect.synthCall text,
         Effect.sleep] := by
    rw [h6000, loopAux]
    simp [mkState, popDispatch, startSynthesis, runSynthCall, h0, hn, hbf]
  rw [startLoop, if_neg (by simp [mkState]), h1,
    loopAux_stuck env 5999 1 1 _ _ rfl rfl (by norm_num) (by norm_num), hbf]
  simp only [List.append_assoc, List.cons_append, List.nil_append,
    List.singleton_append]

/-- Running the loop on a queue headed by a say task whose synthesis
start raises `e`: the loop pops the task, marks busy, notifies the
start, and when `Synth` raises it clears busy, emits the error
notification and re-raises — the exception propagates out of
`startLoop`, the speaking and looping flags are left set, and the rest
of the queue is left unprocessed. -/
theorem startLoop_raises (env : Env) (text : String) (rest : List Task)
    (e : Exn) (hb : env.benignProxy) (h0 : env.synth 0 = .raises e) :
    startLoop env (mkState (Task.say text :: rest)) =
      .raised e
        { queue := rest, looping := true, speaking := true,
          stopping := false, textToSay := some text, dataBuffer := [],
          saveFile := none }
        [Effect.setBusy true, Effect.setBusy true,
         Effect.notify "started-utterance", Effect.synthCall text,
         Effect.setBusy false, Effect.notifyError e] := by
  obtain ⟨hn, hbf⟩ := hb
  have h6000 : (6000 : Nat) = 5999 + 1 := by norm_num
  rw [startLoop, if_neg (by simp [mkState]), h6000, loopAux]
  simp [mkState, popDispatch, startSynthesis, runSynthCall, h0, hn, hbf]

/-- The `runAndWait` poll loop returns only when the queue is empty and
nothing is speaking, and it cannot change the state. -/
theorem waitPoll_some (fuel : Nat) :
    ∀ (st st2 : DriverState), waitPoll fuel st = some st2 →
    st2 = st ∧ st.queue = [] ∧ st.speaking = false := by
  induction fuel with
  | zero => intro st st2 h; cases h
  | succ fuel ih =>
    intro st st2 h
    rw [waitPoll] at h
    by_cases hc : st.queue ≠ [] ∨ st.speaking
    · rw [if_pos hc] at h
      exact ih st st2 h
    · rw [if_neg hc] at h
      cases h
      push_neg at hc
      exact ⟨rfl, hc.1, by simpa using hc.2⟩

/-- With a proxy that never raises, the event loop of the callback never
lets an exception escape, whatever the events, the save target or the
outcome of the wave write. -/
theorem onSynthEvents_benign (env : Env) (waveFail : Bool)
    (hn : ∀ s, env.notifyFail s = none) (hbf : env.setBusyFail = none) :
    ∀ (evs : List SynthEvent) (st : DriverState) (tr : List Effect),
    (onSynthEvents env waveFail evs st tr).2.2 = none := by
  intro evs
  induction evs with
  | nil => intro st tr; rfl
  | cons ev rest ih =>
    intro st tr
    cases ev with
    | other t => exact ih st tr
    | listTerminated =>
      simp only [onSynthEvents, hn, hbf]
      cases hs : st.saveFile <;> simp [ih]

/-- The floor of an integer cast into the rationals is that integer. -/
theorem ratFloor_intCast (n : ℤ) : ratFloor (n : ℚ) = n := by
  unfold ratFloor
  rw [Rat.num_intCast, Rat.den_intCast, Nat.cast_one, Int.fdiv_one]

/-- Rounding an integer value is the identity. -/
theorem roundHalfEven_intCast (n : ℤ) : roundHalfEven (n : ℚ) = n := by
  unfold roundHalfEven
  simp only [ratFloor_intCast]
  norm_num

/-- Truncating an integer value is the identity. -/
theorem pyTrunc_intCast (n : ℤ) : pyTrunc (n : ℚ) = n := by
  unfold pyTrunc
  by_cases h : (0 : ℚ) ≤ (n : ℚ)
  · rw [if_pos h, ratFloor_intCast]
  · have hc : (-(n : ℚ)) = ((-n : ℤ) : ℚ) := by push_cast; ring
    rw [if_neg h, hc, ratFloor_intCast, neg_neg]

/-- With the loop idle, `say` appends its task and runs the loop inside
the call. -/
theorem say_not_looping (env : Env) (st : DriverState) (text : String)
    (hl : st.looping = false) :
    say env st text =
      startLoop env { st with queue := st.queue ++ [Task.say text] } := by
  unfold say
  rw [if_pos (by simp [hl])]

/-- Dispatching a popped task never touches `_looping`. -/
theorem popDispatch_looping (env : Env) (callIdx : Nat) (t : Task)
    (st : DriverState) (tr : List Effect) :
    (popDispatch env callIdx t st tr).1.looping = st.looping := by
  cases t <;> unfold popDispatch <;> cases hbf : env.setBusyFail <;>
    simp [hbf, startSynthesis_looping]

/-- If the loop returns normally without having logged an error, it
exited through the idle check, so the queue is empty and nothing is
speaking.  The invariant carried through the recursion: whenever the
looping flag is already off, the idle condition holds. -/
theorem loopAux_normal_clean (env : Env) (fuel : Nat) :
    ∀ (counter callIdx : Nat) (st : DriverState) (tr : List Effect)
      (st2 : DriverState) (tr2 : List Effect),
    (st.looping = false → st.queue = [] ∧ st.speaking = false) →
    loopAux env fuel counter callIdx st tr = .normal st2 tr2 →
    Effect.logError ∉ tr2 →
    st2.queue = [] ∧ st2.speaking = false := by
  induction fuel with
  | zero => intro counter callIdx st tr st2 tr2 _ h _; cases h
  | succ fuel ih =>
    intro counter callIdx st tr st2 tr2 hinv h hlog
    rw [loopAux] at h
    by_cases hl : st.looping = true
    · rw [if_neg (by simp [hl])] at h
      by_cases hcnt : counter + 1 > 5000
      · rw [if_pos hcnt] at h
        cases h
        exact absurd (by simp) hlog
      · rw [if_neg hcnt] at h
        split at h
        · -- pop branch: a task was started
          rename_i t rest hsp hq
          split at h
          · -- the dispatch raised: cannot be a normal result
            cases h
          · -- the dispatch returned; recurse with the invariant
            rename_i sta tra hpd
            refine ih _ _ _ _ _ _ ?_ h hlog
            by_cases hcond : ¬sta.speaking = true ∧ sta.queue = []
            · rw [if_pos hcond]
              intro _
              exact ⟨hcond.2, by simpa using hcond.1⟩
            · rw [if_neg hcond]
              intro hlf
              exfalso
              have hlp := popDispatch_looping env callIdx t
                { st with queue := rest } tr
              rw [hpd] at hlp
              simp at hlp
              rw [hlf] at hlp
              rw [← hlp] at hl
              cases hl
        · -- idle or still speaking: just sleep and recurse
          refine ih _ _ _ _ _ _ ?_ h hlog
          by_cases hcond : ¬st.speaking = true ∧ st.queue = []
          · rw [if_pos hcond]
            intro _
            exact ⟨hcond.2, by simpa using hcond.1⟩
          · rw [if_neg hcond]
            intro hlf
            rw [hlf] at hl; cases hl
    · simp at hl
      rw [if_pos (by simp [hl])] at h
      cases h
      exact hinv hl

/-- If `startLoop` (called with the loop not yet running) returns
normally and never logged the ceiling error, the queue is empty and
nothing is speaking on return. -/
theorem startLoop_normal_clean (env : Env) (st st2 : DriverState)
    (tr2 : List Effect) (hl : st.looping = false)
    (h : startLoop env st = .normal st2 tr2)
    (hlog : Effect.logError ∉ tr2) :
    st2.queue = [] ∧ st2.speaking = false := by
  rw [startLoop, if_neg (by simp [hl])] at h
  cases hres : loopAux env 6000 0 0 { st with looping := true } [] with
  | normal st3 tr3 =>
    rw [hres] at h
    rcases hbf : env.setBusyFail with _ | e <;> rw [hbf] at h
    · cases h
      refine loopAux_normal_clean env 6000 0 0 _ [] _ _ ?_ hres ?_
      · intro hc; simp at hc
      · intro hmem
        exact hlog (by simp [hmem])
    · cases h
  | raised e st3 tr3 => rw [hres] at h; cases h
  | fuelOut => rw [hres] at h; cases h

/-! ## Claims -/

/-- C1: the spec says that when a synthesis terminates with no save
destination set, the buffer is handed to the platform playback path
before the finished-utterance notification.  The code does not do this:
on the stream-terminated event with `_save_file = None` the callback
only resets the speaking flag, notifies finished-utterance and clears
busy — `_playback_audio` is never invoked on any path, so a plain say
run produces no temp-file write and no player command at all. -/
theorem playback_path_never_invoked :
    (onSynth exEnv false
        { mkState [] with speaking := true, dataBuffer := [1, 2, 3] }
        [] 0 [SynthEvent.listTerminated]).trace =
      [Effect.notifyFinished true, Effect.setBusy false] ∧
    (onSynth exEnv false
        { mkState [] with speaking := true, dataBuffer := [1, 2, 3] }
        [] 0 [SynthEvent.listTerminated]).state.speaking = false ∧
    Effect.playCommand [1, 2, 3] ∉
      (onSynth exEnv false
        { mkState [] with speaking := true, dataBuffer := [1, 2, 3] }
        [] 0 [SynthEvent.listTerminated]).trace ∧
    (say exEnv (mkState []) "hi").traceD =
      [Effect.setBusy true, Effect.setBusy true,
       Effect.notify "started-utterance", Effect.synthCall "hi",
       Effect.notifyFinished true, Effect.setBusy false, Effect.sleep,
       Effect.setBusy false] := by
  refine ⟨rfl, rfl, by decide, rfl⟩

/-- C2 counterexample: with a queue of two say tasks and a binding whose
first synthesis start raises, the exception propagates with the speaking
flag still true and the second task still queued and never started — the
loop does not continue to the next queued task, and the driver does
remain in a speaking state. -/
theorem synth_failure_leaves_speaking_cex :
    (startLoop raiseEnv (mkState [Task.say "a", Task.say "b"])).isRaised
      = true ∧
    (startLoop raiseEnv
        (mkState [Task.say "a", Task.say "b"])).stateD.speaking = true ∧
    (startLoop raiseEnv (mkState [Task.say "a", Task.say "b"])).stateD.queue
      = [Task.say "b"] ∧
    Effect.synthCall "b" ∉
      (startLoop raiseEnv (mkState [Task.say "a", Task.say "b"])).traceD := by
  rw [startLoop_raises raiseEnv "a" [Task.say "b"] "boom"
    ⟨fun _ => rfl, rfl⟩ rfl]
  exact ⟨rfl, rfl, rfl, by decide⟩

/-- C2 (amended): when starting synthesis for a popped task raises, the
driver clears busy, emits an error notification carrying the failure and
propagates it to the caller of the enqueue operation; however the
speaking flag remains set and the loop terminates by propagation without
processing the remaining queued tasks. -/
theorem synth_failure_semantics (env : Env) (text : String)
    (rest : List Task) (e : Exn) (hb : env.benignProxy)
    (h0 : env.synth 0 = .raises e) :
    startLoop env (mkState (Task.say text :: rest)) =
      .raised e
        { queue := rest, looping := true, speaking := true,
          stopping := false, textToSay := some text, dataBuffer := [],
          saveFile := none }
        [Effect.setBusy true, Effect.setBusy true,
         Effect.notify "started-utterance", Effect.synthCall text,
         Effect.setBusy false, Effect.notifyError e] ∧
    (say env (mkState []) text).isRaised = true := by
  refine ⟨startLoop_raises env text rest e hb h0, ?_⟩
  have hsay : say env (mkState []) text =
      startLoop env (mkState [Task.say text]) := rfl
  rw [hsay, startLoop_raises env text [] e hb h0]
  rfl

/-- C2 witness: the amended semantics at a concrete raising binding. -/
theorem synth_failure_semantics_witness :
    startLoop raiseEnv (mkState [Task.say "a", Task.say "b"]) =
      .raised "boom"
        { queue := [Task.say "b"], looping := true, speaking := true,
          stopping := false, textToSay := some "a", dataBuffer := [],
          saveFile := none }
        [Effect.setBusy true, Effect.setBusy true,
         Effect.notify "started-utterance", Effect.synthCall "a",
         Effect.setBusy false, Effect.notifyError "boom"] ∧
    (say raiseEnv (mkState []) "a").isRaised = true :=
  synth_failure_semantics raiseEnv "a" [Task.say "b"] "boom"
    ⟨fun _ => rfl, rfl⟩ rfl

/-- C3: whenever `runAndWait` returns, the task queue is empty and the
speaking flag is false — the poll loop only exits on exactly that
condition and cannot change the state. -/
theorem runAndWait_queue_empty (env : Env) (st st2 : DriverState)
    (tr : List Effect) (h : runAndWait env st = some (st2, tr)) :
    st2.queue = [] ∧ st2.speaking = false := by
  unfold runAndWait at h
  by_cases hl : st.looping = true
  · rw [if_neg (by simp [hl])] at h
    simp only [Option.map_eq_some'] at h
    obtain ⟨s2, hw, heq⟩ := h
    injection heq with h1 h2
    subst h1
    obtain ⟨hse, hq, hsp⟩ := waitPoll_some 2 st s2 hw
    subst hse
    exact ⟨hq, hsp⟩
  · rw [if_pos (by simp [hl])] at h
    cases hres : startLoop env st with
    | normal s3 tr3 =>
      rw [hres] at h
      simp only [Option.map_eq_some'] at h
      obtain ⟨s2, hw, heq⟩ := h
      injection heq with h1 h2
      subst h1
      obtain ⟨hse, hq, hsp⟩ := waitPoll_some 2 s3 s2 hw
      subst hse
      exact ⟨hq, hsp⟩
    | raised e s3 tr3 => rw [hres] at h; cases h
    | fuelOut => rw [hres] at h; cases h

/-- C3 witness: a concrete completed run returning with an empty queue
and the speaking flag down. -/
theorem runAndWait_queue_empty_witness :
    ({ queue := [], looping := false, speaking := false, stopping := false,
       textToSay := some "a", dataBuffer := [1, 0, 2, 0, 3, 0],
       saveFile := none } : DriverState).queue = [] ∧
    ({ queue := [], looping := false, speaking := false, stopping := false,
       textToSay := some "a", dataBuffer := [1, 0, 2, 0, 3, 0],
       saveFile := none } : DriverState).speaking = false :=
  runAndWait_queue_empty exEnv (mkState [Task.say "a"])
    { queue := [], looping := false, speaking := false, stopping := false,
      textToSay := some "a", dataBuffer := [1, 0, 2, 0, 3, 0],
      saveFile := none }
    [Effect.setBusy true, Effect.setBusy true,
     Effect.notify "started-utterance", Effect.synthCall "a",
     Effect.notifyFinished true, Effect.setBusy false, Effect.sleep,
     Effect.setBusy false]
    (by rfl)

/-- C4 counterexample: when the proxy notification for finished-utterance
raises, the exception escapes `_onSynth` — the callback does not return
0 and the failure crosses the native callback boundary, because the
notify and setBusy calls are outside the try of the handler. -/
theorem callback_propagates_proxy_exception_cex :
    (onSynth hostileEnv false { mkState [] with speaking := true } [] 0
        [SynthEvent.listTerminated]).ret = .error "proxy-raise" := by rfl

/-- C4 (amended): provided the proxy notifications (notify and setBusy)
do not raise, every `_onSynth` invocation returns status 0, for any
delivered frames and events and even when the wave file write fails —
file-write failures are caught and logged inside the handler.  A raising
proxy notification, by contrast, propagates across the boundary. -/
theorem callback_returns_zero_benign (env : Env) (waveFail : Bool)
    (st : DriverState) (wav : List Nat) (numsamples : Nat)
    (events : List SynthEvent) (hn : ∀ s, env.notifyFail s = none)
    (hbf : env.setBusyFail = none) :
    (onSynth env waveFail st wav numsamples events).ret = .ok 0 := by
  unfold onSynth
  have h := onSynthEvents_benign env waveFail hn hbf events st []
  rcases he : onSynthEvents env waveFail events st [] with ⟨sta, tra, e?⟩
  rw [he] at h
  simp at h
  subst h
  rfl

/-- C4 witness: status 0 at a concrete invocation in which the wave
write fails while a save target is set. -/
theorem callback_returns_zero_benign_witness :
    (∀ s, exEnv.notifyFail s = none) ∧ exEnv.setBusyFail = none ∧
    (onSynth exEnv true
        { mkState [] with speaking := true, saveFile := some "out.wav" }
        [1] 1 [SynthEvent.listTerminated]).ret = .ok 0 :=
  ⟨fun _ => rfl, rfl,
    callback_returns_zero_benign exEnv true
      { mkState [] with speaking := true, saveFile := some "out.wav" }
      [1] 1 [SynthEvent.listTerminated] (fun _ => rfl) rfl⟩

/-- C5: when a synthesis call never signals completion, the loop
terminates once the 5000-iteration ceiling is exceeded, logging an error
instead of hanging, and the remaining task queue is left as-is — not
cleared. -/
theorem loop_ceiling_terminates (env : Env) (text : String)
    (rest : List Task) (hb : env.benignProxy)
    (h0 : env.synth 0 = .silent) :
    ∃ tr, startLoop env (mkState (Task.say text :: rest)) =
      .normal
        { queue := rest, looping := false, speaking := true,
          stopping := false, textToSay := some text, dataBuffer := [],
          saveFile := none } tr ∧
      Effect.logError ∈ tr := by
  refine ⟨_, startLoop_silent env text rest hb h0, ?_⟩
  simp only [List.mem_append]
  exact Or.inr (by decide)

/-- C5 witness: the ceiling at a concrete never-completing binding, with
a second task left queued untouched. -/
theorem loop_ceiling_terminates_witness :
    silentEnv.benignProxy ∧ silentEnv.synth 0 = .silent ∧
    ∃ tr, startLoop silentEnv (mkState [Task.say "x", Task.say "y"]) =
      .normal
        { queue := [Task.say "y"], looping := false, speaking := true,
          stopping := false, textToSay := some "x", dataBuffer := [],
          saveFile := none } tr ∧
      Effect.logError ∈ tr :=
  ⟨⟨fun _ => rfl, rfl⟩, rfl,
    loop_ceiling_terminates silentEnv "x" [Task.say "y"]
      ⟨fun _ => rfl, rfl⟩ rfl⟩

/-- C6 counterexample: a voice record whose language-code field does not
decode (byte 0xFF after the priority byte).  Listing it does not raise,
but the resulting descriptor carries the empty string — the undecodable
bytes were silently dropped by the ignore decoder — and not the
"Unknown" marker the claim promises. -/
theorem undecodable_language_no_unknown_cex :
    getVoices [badLangVoice] =
      .ok [{ id := [98, 99], name := [65], languages := some [[]],
             gender := some maleStr, age := Option.none }] ∧
    ([([] : List Nat)] : List (List Nat)) ≠ [unknownStr] := by
  refine ⟨rfl, by decide⟩

/-- C6 (amended): listing voices never raises on an undecodable
language-code field — the field is decoded with errors ignored, so
invalid byte runs are dropped from the resulting language string; the
"Unknown" marker is never substituted because the ignore decoder cannot
fail.  Any record with a well-formed identifier and name and a gender
code in 0..2 maps to a descriptor whatever its language bytes are. -/
theorem voices_tolerate_bad_language (v : VoiceRecord) (ids nms : List Nat)
    (hid : utf8DecodeStrict v.identifier = some ids)
    (hnm : utf8DecodeStrict v.name = some nms)
    (hg : v.gender ≤ 2) :
    buildVoice v = .ok
      { id := ids.map lowerCp, name := nms
      , languages := if v.languages = [] then Option.none
                     else some [utf8DecodeIgnore (v.languages.drop 1)]
      , gender := [Option.none, some maleStr,
                   some femaleStr].getD v.gender Option.none
      , age := if v.age = 0 then Option.none else some v.age } := by
  unfold buildVoice
  rw [hid, hnm]
  rcases hgv : v.gender with _ | _ | _ | g
  · rfl
  · rfl
  · rfl
  · rw [hgv] at hg; omega

/-- C6 witness: the tolerant mapping at the concrete undecodable
record. -/
theorem voices_tolerate_bad_language_witness :
    utf8DecodeStrict badLangVoice.identifier = some [66, 67] ∧
    utf8DecodeStrict badLangVoice.name = some [65] ∧
    badLangVoice.gender ≤ 2 ∧
    buildVoice badLangVoice = .ok
      { id := [66, 67].map lowerCp, name := [65]
      , languages := if badLangVoice.languages = [] then Option.none
                     else some [utf8DecodeIgnore
                        (badLangVoice.languages.drop 1)]
      , gender := [Option.none, some maleStr,
                   some femaleStr].getD badLangVoice.gender Option.none
      , age := if badLangVoice.age = 0 then Option.none
               else some badLangVoice.age } :=
  ⟨rfl, rfl, by decide,
    voices_tolerate_bad_language badLangVoice [66, 67] [65] rfl rfl
      (by decide)⟩

/-- C7: setting volume to 0.5 and reading it back yields 0.5 — the
setter scales the fraction to the 0–100 integer scale (landing on 50)
and the getter divides by 100, so the round-trip is the identity at
0.5. -/
theorem volume_roundtrip_half (env : EngineEnv) (params : EngineParams) :
    getProperty env
        (setProperty env params "volume" (.float (1/2))).1 "volume" =
      .ok (.rat (1/2)) := by
  have hv : volumeScaled (1/2) = 50 := by
    unfold volumeScaled
    have h1 : ((1 : ℚ)/2) * 100 = ((50 : ℤ) : ℚ) := by norm_num
    rw [h1]
    have h2 : pyRound2 ((50 : ℤ) : ℚ) = ((50 : ℤ) : ℚ) := by
      unfold pyRound2
      have h3 : ((50 : ℤ) : ℚ) * 100 = ((5000 : ℤ) : ℚ) := by norm_num
      rw [h3, roundHalfEven_intCast]
      norm_num
    rw [h2, pyTrunc_intCast]
  have hget : getProperty env
      (setProperty env params "volume" (.float (1/2))).1 "volume" =
      .ok (.rat ((volumeScaled (1/2) : ℚ) / 100)) := rfl
  rw [hget, hv]
  simp only [Except.ok.injEq, GetResult.rat.injEq]
  norm_num

/-- C8: any property name outside voice, rate, volume, pitch, voices
fails on both set and get with the "unknown property" KeyError, and the
failing set call leaves the whole world — in particular the task queue
and the busy/speaking flags — untouched. -/
theorem unknown_property_errors (env : EngineEnv) (w : World)
    (name : String) (v : PyVal)
    (h : ¬(name = "voice" ∨ name = "rate" ∨ name = "volume" ∨
           name = "pitch" ∨ name = "voices")) :
    setPropertyW env w name v =
      (w, [], some (.keyError ("unknown property " ++ name))) ∧
    getProperty env w.params name =
      .error (.keyError ("unknown property " ++ name)) ∧
    (setPropertyW env w name v).1.driver = w.driver := by
  push_neg at h
  obtain ⟨h1, h2, h3, h4, h5⟩ := h
  refine ⟨?_, ?_, ?_⟩
  · simp [setPropertyW, setProperty, h1, h2, h3, h4]
  · simp [getProperty, h1, h2, h3, h4, h5]
  · simp [setPropertyW, setProperty, h1, h2, h3, h4]

/-- C8 witness: the KeyError at the concrete name "foo". -/
theorem unknown_property_errors_witness :
    ¬("foo" = "voice" ∨ "foo" = "rate" ∨ "foo" = "volume" ∨
      "foo" = "pitch" ∨ "foo" = "voices") ∧
    (setPropertyW exEngineEnv exWorld "foo" PyVal.none =
      (exWorld, [], some (.keyError ("unknown property " ++ "foo"))) ∧
     getProperty exEngineEnv exWorld.params "foo" =
      .error (.keyError ("unknown property " ++ "foo")) ∧
     (setPropertyW exEngineEnv exWorld "foo" PyVal.none).1.driver =
       exWorld.driver) :=
  ⟨by decide,
    unknown_property_errors exEngineEnv exWorld "foo" PyVal.none
      (by decide)⟩

/-- C9 counterexample: setting voice to the empty string is not a silent
no-op — the empty string is encoded and passed to `SetVoiceByName`, so
the Engine Binding is called. -/
theorem empty_voice_calls_engine_cex :
    (setPropertyW exEngineEnv exWorld "voice" (.str "")).2.1 =
      [EngEffect.setVoiceByName []] := by rfl

/-- C9 (amended): only the absent value (None) short-circuits — it
returns silently without any Engine Binding call and without an error;
every string value, the empty string included, is encoded and handed to
`SetVoiceByName`. -/
theorem voice_none_noop (env : EngineEnv) (w : World) (s : String) :
    setPropertyW env w "voice" PyVal.none = (w, [], Option.none) ∧
    (setPropertyW env w "voice" (.str s)).2.1 =
      [EngEffect.setVoiceByName (utf8Encode s)] := by
  constructor
  · simp [setPropertyW, setProperty]
  · simp only [setPropertyW, setProperty, pyStr, if_pos]
    split_ifs <;> rfl

/-- C10 counterexample: with a binding that never signals completion,
`say` returns without raising (after the ceiling) while the speaking
flag is still true — so a normal return from the enqueue operation does
not guarantee that no synthesis is in flight. -/
theorem say_returns_speaking_cex :
    (say silentEnv (mkState []) "a").isRaised = false ∧
    (say silentEnv (mkState []) "a").stateD.speaking = true := by
  have hsay := say_not_looping silentEnv (mkState []) "a" rfl
  have hst : ({ mkState [] with
      queue := (mkState []).queue ++ [Task.say "a"] } : DriverState) =
      mkState [Task.say "a"] := by simp [mkState]
  rw [hst] at hsay
  rw [hsay, startLoop_silent silentEnv "a" [] ⟨fun _ => rfl, rfl⟩ rfl]
  exact ⟨rfl, rfl⟩

/-- C10 (amended): when the loop is not already running, `say` and
`save_to_file` run it synchronously inside the call; if the call returns
without raising and without tripping the iteration ceiling (no error was
logged), then the queue is empty and no synthesis is in flight. -/
theorem enqueue_runs_loop_synchronously (env : Env) (st : DriverState)
    (text fn : String) (hl : st.looping = false) :
    (∀ st2 tr2, say env st text = .normal st2 tr2 →
      Effect.logError ∉ tr2 → st2.queue = [] ∧ st2.speaking = false) ∧
    (∀ st2 tr2, saveToFile env st text fn = .normal st2 tr2 →
      Effect.logError ∉ tr2 → st2.queue = [] ∧ st2.speaking = false) := by
  constructor
  · intro st2 tr2 h hlog
    unfold say at h
    rw [if_pos (by simp [hl])] at h
    exact startLoop_normal_clean env _ _ _ (by simp [hl]) h hlog
  · intro st2 tr2 h hlog
    unfold saveToFile at h
    rw [if_pos (by simp [hl])] at h
    exact startLoop_normal_clean env _ _ _ (by simp [hl]) h hlog

/-- C10 witness: concrete say and save runs returning with the queue
drained and the speaking flag down. -/
theorem enqueue_runs_loop_synchronously_witness :
    (mkState []).looping = false ∧
    ({ queue := [], looping := false, speaking := false,
       stopping := false, textToSay := some "a",
       dataBuffer := [1, 0, 2, 0, 3, 0], saveFile := none }
        : DriverState).queue = [] ∧
    ({ queue := [], looping := false, speaking := false,
       stopping := false, textToSay := some "a", dataBuffer := [],
       saveFile := none } : DriverState).speaking = false :=
  ⟨rfl,
    ((enqueue_runs_loop_synchronously exEnv (mkState []) "a" "f.wav"
        rfl).1
      { queue := [], looping := false, speaking := false,
        stopping := false, textToSay := some "a",
        dataBuffer := [1, 0, 2, 0, 3, 0], saveFile := none }
      [Effect.setBusy true, Effect.setBusy true,
       Effect.notify "started-utterance", Effect.synthCall "a",
       Effect.notifyFinished true, Effect.setBusy false, Effect.sleep,
       Effect.setBusy false] (by rfl) (by decide)).1,
    ((enqueue_runs_loop_synchronously exEnv (mkState []) "a" "f.wav"
        rfl).2
      { queue := [], looping := false, speaking := false,
        stopping := false, textToSay := some "a", dataBuffer := [],
        saveFile := none }
      [Effect.setBusy true, Effect.setBusy true,
       Effect.notify "started-utterance", Effect.synthCall "a",
       Effect.waveWrite "f.wav" [1, 0, 2, 0, 3, 0],
       Effect.notifyFinished true, Effect.setBusy false, Effect.sleep,
       Effect.setBusy false] (by rfl) (by decide)).2⟩

end Espeak
